import Mathlib

/-!
Verification of the `ansible-zammad` collection against its specification.

The development shallowly embeds the three Python source files:

* `plugins/modules/zammad_ticket.py` — the desired-state ticket reconciler
  (create / update / close), its reference-data resolvers
  (`get_owner_name`, `get_owner_id`, `get_customer_email`, `get_group_name`,
  `get_ticket_state_name`, `get_priority_name`), the change detector
  `has_changes`, the validator `validate_params`, and the driver `run_module`.
* `plugins/modules/zammad_ticket_idoit.py` — the external-identifier
  association variant.
* `plugins/module_utils/http_request.py` — the HTTP client `make_request`.

Python dicts with a fixed key set are embedded as association lists of
`String × Option String` (a `None` value and an absent key are both read back
as `none` by `.get`, exactly as in Python).  Machine integers do not overflow
anywhere in the source, so ids are `Nat`.  Fallible code (Python exceptions,
`module.fail_json`) is embedded with `Except`.  Network traffic is made
observable: the driver returns, next to its result, the list of API calls it
issued, in order.  Each call's response is supplied by an `Env` value
describing the remote service; the driver model covers the path on which every
HTTP request succeeds (the client's own error classification is embedded
separately as `make_request`, following `http_request.py`).  `check_mode`
(which exits before doing anything) is not modelled.
-/

namespace Zammad

/-- One entry of the `users` lookup collection (also used as the customer
collection: the source passes `users` for both). -/
structure User where
  id : Nat
  firstname : String
  lastname : String
  email : String
deriving DecidableEq, Repr

/-- One entry of the `groups`, `ticket_states` or `ticket_priorities`
lookup collections: an id and a display name. -/
structure NamedRec where
  id : Nat
  name : String
deriving DecidableEq, Repr

/-- The remote ticket record, as far as the source reads it: the title and
the foreign-key ids resolved through the lookup collections.  A missing key
(`ticket_data.get(...)` returning `None`) is `none`. -/
structure TicketRec where
  title : String
  owner_id : Option Nat
  customer_id : Option Nat
  group_id : Option Nat
  state_id : Option Nat
  priority_id : Option Nat
deriving DecidableEq, Repr

/-- One article of a ticket, as far as the source reads it
(`subject`, `body`, `internal`). -/
structure Article where
  subject : String
  body : String
  internal : Bool
deriving DecidableEq, Repr

/-- Python's `str(b).lower()` for a boolean `b`. -/
def boolLower (b : Bool) : String := if b then "true" else "false"

/-! ## Reference data resolvers (zammad_ticket.py lines 236–297)

Each Python resolver is a `for` loop returning on the first entry whose `id`
equals the ticket's foreign key, and falling off the end (returning `None`)
otherwise; that is `List.find?`.  The comparison `entry["id"] == fk` is false
in Python whenever the foreign key is absent (`None`), which the embedding
renders as `some entry.id == fk` over `Option Nat`. -/

/-- `get_customer_email` (lines 236–240). -/
def get_customer_email (ticket_data : TicketRec) (customers : List User) : Option String :=
  (customers.find? (fun c => (some c.id : Option Nat) == ticket_data.customer_id)).map
    (fun c => c.email)

/-- `get_owner_name` (lines 243–247): composes `firstname + " " + lastname`. -/
def get_owner_name (ticket_data : TicketRec) (owners : List User) : Option String :=
  (owners.find? (fun o => (some o.id : Option Nat) == ticket_data.owner_id)).map
    (fun o => o.firstname ++ " " ++ o.lastname)

/-- `get_group_name` (lines 263–267). -/
def get_group_name (ticket_data : TicketRec) (groups : List NamedRec) : Option String :=
  (groups.find? (fun g => (some g.id : Option Nat) == ticket_data.group_id)).map
    (fun g => g.name)

/-- `get_ticket_state_name` (lines 274–278). -/
def get_ticket_state_name (ticket_data : TicketRec) (ticket_states : List NamedRec) :
    Option String :=
  (ticket_states.find? (fun s => (some s.id : Option Nat) == ticket_data.state_id)).map
    (fun s => s.name)

/-- `get_priority_name` (lines 285–289). -/
def get_priority_name (ticket_data : TicketRec) (priorities : List NamedRec) : Option String :=
  (priorities.find? (fun p => (some p.id : Option Nat) == ticket_data.priority_id)).map
    (fun p => p.name)

/-! ## Python `str.split(maxsplit=1)` (used by `get_owner_id`, line 253) -/

/-- The characters Python's no-separator `str.split` treats as whitespace
(the ASCII ones; the source only ever meets the space it inserts itself). -/
def pyIsSpace (c : Char) : Bool :=
  c = ' ' || c = '\t' || c = '\n' || c = '\r' || c = '\x0b' || c = '\x0c'

/-- Python `s.split(maxsplit=1)`: leading whitespace is skipped; the first
token is the maximal run of non-whitespace; the whitespace run after it is
skipped; whatever remains (verbatim, trailing whitespace kept) is the second
element when non-empty. -/
def splitMaxsplit1 (s : String) : List String :=
  let cs := s.data.dropWhile pyIsSpace
  if cs.isEmpty then []
  else
    let tok := cs.takeWhile (fun c => !pyIsSpace c)
    let rest := (cs.dropWhile (fun c => !pyIsSpace c)).dropWhile pyIsSpace
    if rest.isEmpty then [⟨tok⟩] else [⟨tok⟩, ⟨rest⟩]

/-- `get_owner_id` (lines 250–256).  `firstname, lastname = name.split(maxsplit=1)`
raises `ValueError` when the split does not yield exactly two parts; the loop
returns the first owner matching both parts, `None` when there is none. -/
def get_owner_id (owner_name : Option String) (owners : List User) :
    Except String (Option Nat) :=
  match owner_name with
  | none => .ok none
  | some name =>
    match splitMaxsplit1 name with
    | [firstname, lastname] =>
        .ok ((owners.find?
          (fun o => o.firstname == firstname && o.lastname == lastname)).map (fun o => o.id))
    | [] => .error "not enough values to unpack (expected 2, got 0)"
    | [_] => .error "not enough values to unpack (expected 2, got 1)"
    | _ :: _ :: _ :: _ => .error "too many values to unpack (expected 2)"

/-! ## Change detection (zammad_ticket.py lines 308–313) -/

/-- Python `d.get(key)` on the embedded dict: absent key and `None` value are
indistinguishable, both give `none`. -/
def dictGet (d : List (String × Option String)) (key : String) : Option String :=
  match d.find? (fun kv => kv.1 == key) with
  | some kv => kv.2
  | none => none

/-- `has_changes` (lines 308–313): true when some key of the desired dict has
a non-`None` value differing from `current.get(key)`. -/
def has_changes (current_ticket_data ticket_data : List (String × Option String)) : Bool :=
  ticket_data.any (fun kv =>
    match kv.2 with
    | none => false
    | some v => dictGet current_ticket_data kv.1 != some v)

/-! ## JSON values and request payloads -/

/-- A JSON value, used for the bodies of write requests. -/
inductive JVal where
  | null : JVal
  | str : String → JVal
  | nat : Nat → JVal
  | arr : List JVal → JVal
  | obj : List (String × JVal) → JVal
deriving Repr

/-- A Python value that may be `None`, rendered into JSON (`None` ↦ `null`). -/
def optStrJ (v : Option String) : JVal :=
  match v with
  | none => .null
  | some s => .str s

/-- The `{key: value for ... if value is not None}` comprehension used by
`create_ticket` and `update_ticket`: keep only the pairs with a value. -/
def filteredPairs (l : List (String × Option JVal)) : List (String × JVal) :=
  l.filterMap (fun p => p.2.map (fun v => (p.1, v)))

/-- The `article` dict built by `create_ticket` (lines 181–186) and, when a
body is supplied, by `update_ticket` (lines 203–209). -/
def articleJson (subject body : Option String) (internal : Bool) : JVal :=
  .obj [("subject", optStrJ subject), ("body", optStrJ body),
        ("type", .str "note"), ("internal", .str (boolLower internal))]

/-- The body of the POST issued by `create_ticket` (lines 187–197). -/
def create_ticket_payload (owner : Option Nat)
    (customer title group subject body : Option String) (internal : Bool)
    (ticket_state priority : Option String) : JVal :=
  .obj (("article", articleJson subject body internal) ::
    filteredPairs
      [("owner_id", owner.map JVal.nat),
       ("title", title.map JVal.str),
       ("group", group.map JVal.str),
       ("state", ticket_state.map JVal.str),
       ("customer", customer.map JVal.str),
       ("priority", priority.map JVal.str)])

/-- The body of the PUT issued by `update_ticket` (lines 202–219).  The
article is the empty dict when the body parameter is falsy (`if body:`). -/
def update_ticket_payload (owner : Option Nat)
    (title group subject body : Option String) (internal : Bool)
    (ticket_state priority : Option String) : JVal :=
  .obj (("article",
          if body.getD "" ≠ "" then articleJson subject body internal else .obj []) ::
    filteredPairs
      [("owner_id", owner.map JVal.nat),
       ("title", title.map JVal.str),
       ("group", group.map JVal.str),
       ("state", ticket_state.map JVal.str),
       ("priority", priority.map JVal.str)])

/-- The body of the PUT issued by `close_ticket` (lines 223–225). -/
def close_ticket_payload : JVal := .obj [("state", .str "closed")]

/-- The body of the PUT issued by `change_idoit_object`
(zammad_ticket_idoit.py lines 102–110): the single object id nested inside
`preferences.idoit.object_ids`. -/
def change_idoit_object_payload (object_id : String) : JVal :=
  .obj [("preferences",
    .obj [("idoit",
      .obj [("object_ids", .arr [.str object_id])])])]

/-! ## The API call trace -/

/-- One HTTP request issued through `make_request`, as named by its call site
in the source.  Write requests carry their JSON body. -/
inductive ApiCall where
  | getUsers : ApiCall
  | getGroups : ApiCall
  | getTicketStates : ApiCall
  | getPriorities : ApiCall
  | getTicket : Nat → ApiCall
  | getArticles : Nat → ApiCall
  | postTicket : JVal → ApiCall
  | putTicket : Nat → JVal → ApiCall
deriving Repr

/-- Whether a call is a write (POST or PUT). -/
def ApiCall.isWrite : ApiCall → Bool
  | .postTicket _ => true
  | .putTicket _ _ => true
  | _ => false

/-! ## The HTTP client (`make_request`, http_request.py lines 15–35; the same
function is duplicated verbatim in zammad_ticket.py lines 157–177) -/

/-- What the transport (`fetch_url`) hands back for one request: the status
and message from `info`, and the response body — `none` when the body is not
valid JSON, `some v` when it parses to `v`. -/
structure HttpResp where
  status : Nat
  msg : String
  body : Option JVal

/-- The outcome of `make_request`: either `module.fail_json` (fatal, with the
message and, when given, the `status_code` field) or the parsed body with the
status. -/
inductive ReqResult where
  | failJson : String → Option Nat → ReqResult
  | ok : JVal → Nat → ReqResult

/-- `make_request` (http_request.py lines 15–35), given the transport's
response.  The second component counts the `fetch_url` round trips performed:
the body has exactly one, unconditionally — there is no retry loop. -/
def make_request (resp : HttpResp) : ReqResult × Nat :=
  if resp.status ≥ 400 then
    (.failJson ("API request failed: " ++ resp.msg) (some resp.status), 1)
  else
    match resp.body with
    | none => (.failJson "Failed to parse JSON response" none, 1)
    | some v => (.ok v resp.status, 1)

/-! ## Module parameters and validation (zammad_ticket.py lines 300–305,
316–341) -/

/-- The parameters of one `zammad_ticket` invocation, after Ansible's
argument parsing: every optional parameter defaults to `None`
(embedded `none`), `internal` defaults to false. -/
structure Params where
  zammad_url : String
  api_user : String
  api_secret : String
  state : String
  ticket_id : Option Nat
  owner : Option String
  customer : Option String
  title : Option String
  group : Option String
  subject : Option String
  body : Option String
  internal : Bool
  ticket_state : Option String
  priority : Option String
deriving Repr

/-- Python truthiness of an optional int parameter (`None` and `0` are
falsy). -/
def natTruthy (v : Option Nat) : Bool :=
  match v with
  | none => false
  | some n => n != 0

/-- Python truthiness of an optional string parameter (`None` and `""` are
falsy). -/
def strTruthy (v : Option String) : Bool :=
  match v with
  | none => false
  | some s => s != ""

/-- Truthiness of `module.params[param]` for the parameter names the source
passes to `validate_params`. -/
def paramTruthy (p : Params) : String → Bool
  | "ticket_id" => natTruthy p.ticket_id
  | "owner" => strTruthy p.owner
  | "customer" => strTruthy p.customer
  | "title" => strTruthy p.title
  | "group" => strTruthy p.group
  | "subject" => strTruthy p.subject
  | "body" => strTruthy p.body
  | "ticket_state" => strTruthy p.ticket_state
  | "priority" => strTruthy p.priority
  | _ => false

/-- Truthiness of the three `zammad_access` entries checked first by
`validate_params` (line 302). -/
def zammadAccessOk (p : Params) : Bool :=
  p.zammad_url != "" && p.api_user != "" && p.api_secret != ""

/-- A fatal failure of the invocation (`module.fail_json`, or an uncaught
Python exception). -/
inductive Failure where
  | validation : String → Failure
  | valueError : String → Failure
  | indexError : Failure
deriving DecidableEq, Repr

/-- `validate_params` (lines 300–305): the `zammad_access` entries first,
then every name of `required_params`; the failure message joins ALL required
names (not only the missing ones), with the source's spelling. -/
def validate_params (p : Params) (required_params : List String) : Except Failure Unit :=
  if zammadAccessOk p = false then
    .error (.validation
      "Missing required zammad_access parameters: zammad_url, api_user, and/or api_secret.")
  else if required_params.all (paramTruthy p) = false then
    .error (.validation
      ("Missing required paramters: " ++ String.intercalate ", " required_params))
  else .ok ()

/-! ## The driver (`run_module`, zammad_ticket.py lines 316–468) -/

/-- The result dict the module exits with (line 340, updated per branch). -/
structure ModuleResult where
  changed : Bool
  ticket_id : Option Nat
  status_code : Nat
  message : String
deriving DecidableEq, Repr

/-- The remote service as one invocation observes it, on the path where every
HTTP request succeeds: the four reference collections, the record and article
list served for the requested ticket, the `id` field of the create response
(`ticket_data.get("id")`, absent ↦ `none`), and the status codes of the write
responses. -/
structure Env where
  users : List User
  groups : List NamedRec
  ticket_states : List NamedRec
  priorities : List NamedRec
  ticket : TicketRec
  articles : List Article
  createRespId : Option Nat
  createStatus : Nat
  updateStatus : Nat
  closeStatus : Nat

/-- The `current_ticket_data` dict of the update branch (lines 364–374),
given the last element of the ticket's article list. -/
def currentTicketData (env : Env) (lastArticle : Article) : List (String × Option String) :=
  [("owner", get_owner_name env.ticket env.users),
   ("customer", get_customer_email env.ticket env.users),
   ("title", some env.ticket.title),
   ("group", get_group_name env.ticket env.groups),
   ("subject", some lastArticle.subject),
   ("body", some lastArticle.body),
   ("internal", some (boolLower lastArticle.internal)),
   ("ticket_state", get_ticket_state_name env.ticket env.ticket_states),
   ("priority", get_priority_name env.ticket env.priorities)]

/-- The desired-state `ticket_data` dict of the update branch
(lines 376–386). -/
def desiredTicketData (p : Params) : List (String × Option String) :=
  [("owner", p.owner),
   ("customer", p.customer),
   ("title", p.title),
   ("group", p.group),
   ("subject", p.subject),
   ("body", p.body),
   ("internal", some (boolLower p.internal)),
   ("ticket_state", p.ticket_state),
   ("priority", p.priority)]

/-- The four reference-data fetches issued unconditionally at the top of
`run_module` (lines 352–355), before any branch is selected and before any
call to `validate_params`. -/
def refDataCalls : List ApiCall :=
  [.getUsers, .getGroups, .getTicketStates, .getPriorities]

/-- `run_module` (lines 316–468) on the path where every HTTP request
succeeds, returning the result (or the fatal failure) together with the list
of API calls issued, in order.  The branch structure, the call order and the
result fields follow the source line by line:

* lines 352–355 — the four reference fetches, before everything else;
* lines 358–416 — update (`state == "present" and module.params["ticket_id"]`,
  Python truthiness);
* lines 418–440 — create (`state == "present"`, otherwise);
* lines 442–463 — close (`state == "absent"`);
* falling through both tests reaches `module.exit_json(**result)` with the
  initial result (line 465);
* `ticket_articles[-1]` on an empty article list raises `IndexError`
  (line 297), uncaught by the `except ValueError` handler;
* `get_owner_id` is evaluated as an argument, before the write it feeds
  (lines 395, 425); its `ValueError` is caught at line 467 and reported via
  `module.fail_json`. -/
def run_module (p : Params) (env : Env) : Except Failure ModuleResult × List ApiCall :=
  if p.state = "present" ∧ natTruthy p.ticket_id = true then
    match validate_params p ["ticket_id"] with
    | .error f => (.error f, refDataCalls)
    | .ok () =>
      let tid := p.ticket_id.getD 0
      let calls := refDataCalls ++ [.getTicket tid, .getArticles tid]
      match env.articles.getLast? with
      | none => (.error .indexError, calls)
      | some lastArticle =>
        if has_changes (currentTicketData env lastArticle) (desiredTicketData p) then
          match get_owner_id p.owner env.users with
          | .error e => (.error (.valueError e), calls)
          | .ok owner_id =>
            (.ok ⟨true, some tid, env.updateStatus, "Ticket updated successfully."⟩,
             calls ++ [.putTicket tid
               (update_ticket_payload owner_id p.title p.group p.subject p.body
                 p.internal p.ticket_state p.priority)])
        else
          (.ok ⟨false, some tid, 0, "No changes required."⟩, calls)
  else if p.state = "present" then
    match validate_params p
        ["customer", "title", "group", "subject", "body", "ticket_state", "priority"] with
    | .error f => (.error f, refDataCalls)
    | .ok () =>
      match get_owner_id p.owner env.users with
      | .error e => (.error (.valueError e), refDataCalls)
      | .ok owner_id =>
        (.ok ⟨true, env.createRespId, env.createStatus, "Ticket created successfully."⟩,
         refDataCalls ++ [.postTicket
           (create_ticket_payload owner_id p.customer p.title p.group p.subject p.body
             p.internal p.ticket_state p.priority)])
  else if p.state = "absent" then
    match validate_params p ["ticket_id"] with
    | .error f => (.error f, refDataCalls)
    | .ok () =>
      let tid := p.ticket_id.getD 0
      let calls := refDataCalls ++ [.getTicket tid]
      let current := [("ticket_state", get_ticket_state_name env.ticket env.ticket_states)]
      let desired := [("ticket_state", p.ticket_state)]
      if has_changes current desired then
        (.ok ⟨true, some tid, env.closeStatus, "Ticket closed successfully."⟩,
         calls ++ [.putTicket tid close_ticket_payload])
      else
        (.ok ⟨false, some tid, 0, "Ticket is already closed."⟩, calls)
  else
    (.ok ⟨false, none, 0, ""⟩, refDataCalls)

/-! ## The idoit variant (`zammad_ticket_idoit.py`, lines 102–155) -/

/-- The parameters of one `zammad_ticket_idoit` invocation (both are
`required=True` in the argument spec). -/
structure IdoitParams where
  zammad_url : String
  api_user : String
  api_secret : String
  ticket_id : Nat
  object_id : String
deriving Repr

/-- `run_module` of zammad_ticket_idoit.py (lines 113–154) on the path where
the request succeeds: no validation call, no diffing — `change_idoit_object`
issues its single PUT (line 142), after which `module.exit_json(**result)` is
reached with `result` still holding its initial value
`{changed: False, ticket_id: None, status_code: 0, message: ""}` (line 130):
the PUT's `ticket_data`/`status_code` are bound but never copied into
`result`. -/
def run_module_idoit (p : IdoitParams) : Except Failure ModuleResult × List ApiCall :=
  (.ok ⟨false, none, 0, ""⟩,
   [.putTicket p.ticket_id (change_idoit_object_payload p.object_id)])

/-! ## Concrete example inputs used by counterexamples and witnesses -/

/-- A remote service whose lookup collections resolve the sample ticket to
owner "John Doe", customer "c@example.com", group "Support", state "open",
priority "high". -/
def envA : Env :=
  { users := [⟨1, "John", "Doe", "c@example.com"⟩],
    groups := [⟨1, "Support"⟩],
    ticket_states := [⟨1, "open"⟩, ⟨2, "closed"⟩],
    priorities := [⟨1, "high"⟩],
    ticket := ⟨"T", some 1, some 1, some 1, some 1, some 1⟩,
    articles := [⟨"s", "b", false⟩],
    createRespId := some 77,
    createStatus := 201, updateStatus := 200, closeStatus := 200 }

/-- A create invocation (no ticket id) whose required `customer` is absent. -/
def pC1 : Params :=
  { zammad_url := "https://z", api_user := "u", api_secret := "s",
    state := "present", ticket_id := none,
    owner := none, customer := none, title := some "T", group := some "Support",
    subject := some "s", body := some "b", internal := false,
    ticket_state := some "open", priority := some "high" }

/-- An update invocation whose desired state sets nothing (every optional
field `None`), hence cannot differ from the remote state. -/
def pC3 : Params :=
  { zammad_url := "https://z", api_user := "u", api_secret := "s",
    state := "present", ticket_id := some 5,
    owner := none, customer := none, title := none, group := none,
    subject := none, body := none, internal := false,
    ticket_state := none, priority := none }

/-- A close invocation that supplies no target `ticket_state`, against a
remote ticket whose current state resolves to "open". -/
def pC5 : Params :=
  { zammad_url := "https://z", api_user := "u", api_secret := "s",
    state := "absent", ticket_id := some 5,
    owner := none, customer := none, title := none, group := none,
    subject := none, body := none, internal := false,
    ticket_state := none, priority := none }

/-- A close invocation whose supplied target "closed" differs from the
current state "open" of `envA`'s ticket. -/
def pC5w : Params :=
  { pC5 with ticket_state := some "closed" }

/-- A create invocation with every required field present and a single-token
owner name. -/
def pC9 : Params :=
  { zammad_url := "https://z", api_user := "u", api_secret := "s",
    state := "present", ticket_id := none,
    owner := some "john", customer := some "c@example.com", title := some "T",
    group := some "Support", subject := some "s", body := some "b", internal := false,
    ticket_state := some "open", priority := some "high" }

/-- The same create invocation with a two-token owner name. -/
def pC9w : Params :=
  { pC9 with owner := some "John Doe" }

/-- A user collection holding two distinct users with the same composed
display name. -/
def dupOwners : List User := [⟨1, "John", "Doe", "a@x"⟩, ⟨2, "John", "Doe", "b@x"⟩]

/-- A ticket owned by the second of the two same-named users. -/
def tDup : TicketRec := ⟨"T", some 2, none, none, none, none⟩

/-! ## Helper lemmas -/

theorem takeWhile_all_append {α : Type} {q : α → Bool} (a b : List α)
    (ha : ∀ c ∈ a, q c = true) :
    (a ++ b).takeWhile q = a ++ b.takeWhile q := by
  induction a with
  | nil => simp
  | cons x xs ih =>
      have hx : q x = true := ha x (List.mem_cons_self _ _)
      simp only [List.cons_append, List.takeWhile_cons, hx, if_true]
      rw [ih (fun c hc => ha c (List.mem_cons_of_mem _ hc))]

theorem dropWhile_all_append {α : Type} {q : α → Bool} (a b : List α)
    (ha : ∀ c ∈ a, q c = true) :
    (a ++ b).dropWhile q = b.dropWhile q := by
  induction a with
  | nil => simp
  | cons x xs ih =>
      have hx : q x = true := ha x (List.mem_cons_self _ _)
      simp only [List.cons_append, List.dropWhile_cons, hx, if_true]
      exact ih (fun c hc => ha c (List.mem_cons_of_mem _ hc))

theorem takeWhile_all {α : Type} {q : α → Bool} (a : List α)
    (ha : ∀ c ∈ a, q c = true) : a.takeWhile q = a := by
  have := takeWhile_all_append a [] ha
  simpa using this

theorem dropWhile_all {α : Type} {q : α → Bool} (a : List α)
    (ha : ∀ c ∈ a, q c = true) : a.dropWhile q = [] := by
  have := dropWhile_all_append a [] ha
  simpa using this

/-- A string that is non-empty and contains no Python whitespace splits into
the single token that is the string itself. -/
theorem splitMaxsplit1_single (s : String) (hne : s ≠ "")
    (hs : ∀ c ∈ s.data, pyIsSpace c = false) :
    splitMaxsplit1 s = [s] := by
  have hdata : s.data ≠ [] := by
    intro h
    exact hne (by cases s; simp_all)
  obtain ⟨x, xs, hx⟩ : ∃ x xs, s.data = x :: xs := by
    cases h : s.data with
    | nil => exact absurd h hdata
    | cons x xs => exact ⟨x, xs, rfl⟩
  unfold splitMaxsplit1
  rw [hx, List.dropWhile_cons, hs x (by rw [hx]; exact List.mem_cons_self _ _)]
  simp only [if_false, Bool.false_eq_true, List.isEmpty_cons]
  have htake : (x :: xs).takeWhile (fun c => !pyIsSpace c) = x :: xs := by
    apply takeWhile_all
    intro c hc
    rw [hs c (by rw [hx]; exact hc)]
    rfl
  have hdrop : (x :: xs).dropWhile (fun c => !pyIsSpace c) = [] := by
    apply dropWhile_all
    intro c hc
    rw [hs c (by rw [hx]; exact hc)]
    rfl
  rw [htake, hdrop]
  simp only [List.dropWhile_nil, List.isEmpty_nil, if_true]
  have : (⟨x :: xs⟩ : String) = s := by cases s; simp_all
  rw [this]

/-- A composed name `fn ++ " " ++ ln` with non-empty, whitespace-free parts
splits back into exactly those parts. -/
theorem splitMaxsplit1_compose (fn ln : String) (hfn : fn ≠ "") (hln : ln ≠ "")
    (hfs : ∀ c ∈ fn.data, pyIsSpace c = false)
    (hls : ∀ c ∈ ln.data, pyIsSpace c = false) :
    splitMaxsplit1 (fn ++ " " ++ ln) = [fn, ln] := by
  have hdata : (fn ++ " " ++ ln).data = fn.data ++ ' ' :: ln.data := by
    rw [String.data_append, String.data_append]
    have hsp : (" " : String).data = [' '] := by decide
    rw [hsp, List.append_assoc]
    rfl
  obtain ⟨x, xs, hx⟩ : ∃ x xs, fn.data = x :: xs := by
    cases h : fn.data with
    | nil => exact absurd (by cases fn; simp_all) hfn
    | cons x xs => exact ⟨x, xs, rfl⟩
  obtain ⟨y, ys, hy⟩ : ∃ y ys, ln.data = y :: ys := by
    cases h : ln.data with
    | nil => exact absurd (by cases ln; simp_all) hln
    | cons y ys => exact ⟨y, ys, rfl⟩
  have hdw : (fn.data ++ ' ' :: ln.data).dropWhile pyIsSpace =
      fn.data ++ ' ' :: ln.data := by
    rw [hx, List.cons_append, List.dropWhile_cons,
      hfs x (by rw [hx]; exact List.mem_cons_self _ _)]
    simp
  have hne2 : (fn.data ++ ' ' :: ln.data).isEmpty = false := by
    rw [hx]; rfl
  have htok : (fn.data ++ ' ' :: ln.data).takeWhile (fun c => !pyIsSpace c) = fn.data := by
    rw [takeWhile_all_append _ _ (fun c hc => by rw [hfs c hc]; rfl)]
    simp [List.takeWhile_cons, pyIsSpace]
  have hrest : ((fn.data ++ ' ' :: ln.data).dropWhile
      (fun c => !pyIsSpace c)).dropWhile pyIsSpace = ln.data := by
    rw [dropWhile_all_append _ _ (fun c hc => by rw [hfs c hc]; rfl)]
    rw [List.dropWhile_cons]
    have h1 : (!pyIsSpace ' ') = false := by rfl
    rw [h1]
    simp only [Bool.false_eq_true, if_false, List.dropWhile_cons]
    have h2 : pyIsSpace ' ' = true := by rfl
    rw [h2]
    simp only [if_true]
    rw [hy, List.dropWhile_cons, hls y (by rw [hy]; exact List.mem_cons_self _ _)]
    simp
  have hlne : ln.data.isEmpty = false := by rw [hy]; rfl
  have e1 : (⟨fn.data⟩ : String) = fn := by cases fn; rfl
  have e2 : (⟨ln.data⟩ : String) = ln := by cases ln; rfl
  unfold splitMaxsplit1
  simp only [hdata, hdw, hne2, htok, hrest, hlne, Bool.false_eq_true, if_false, e1, e2]

theorem find?_by_id (owners : List User) (u : User)
    (hmem : u ∈ owners) (huniq : ∀ v ∈ owners, v.id = u.id → v = u) :
    owners.find? (fun o => (some o.id : Option Nat) == some u.id) = some u := by
  induction owners with
  | nil => cases hmem
  | cons a l ih =>
      rw [List.find?_cons]
      by_cases ha : a.id = u.id
      · have : a = u := huniq a (List.mem_cons_self _ _) ha
        subst this
        simp
      · have hpred : ((some a.id : Option Nat) == some u.id) = false := by
          simp [ha]
        rw [hpred]
        have hmem' : u ∈ l := by
          rcases List.mem_cons.mp hmem with h | h
          · exact absurd (by rw [h]) ha
          · exact h
        exact ih hmem' (fun v hv => huniq v (List.mem_cons_of_mem _ hv))

theorem find?_by_name (owners : List User) (u : User)
    (hmem : u ∈ owners)
    (huniq : ∀ v ∈ owners, v.firstname = u.firstname → v.lastname = u.lastname → v = u) :
    owners.find? (fun o => o.firstname == u.firstname && o.lastname == u.lastname) =
      some u := by
  induction owners with
  | nil => cases hmem
  | cons a l ih =>
      rw [List.find?_cons]
      by_cases ha : a.firstname = u.firstname ∧ a.lastname = u.lastname
      · have : a = u := huniq a (List.mem_cons_self _ _) ha.1 ha.2
        subst this
        simp
      · have hpred : (a.firstname == u.firstname && a.lastname == u.lastname) = false := by
          rcases Decidable.not_and_iff_or_not.mp ha with h | h <;> simp [h]
        rw [hpred]
        have hmem' : u ∈ l := by
          rcases List.mem_cons.mp hmem with h | h
          · exact absurd (by rw [h]; exact ⟨rfl, rfl⟩) ha
          · exact h
        exact ih hmem' (fun v hv => huniq v (List.mem_cons_of_mem _ hv))

/-! ## Claim theorems -/

/-- C2: the idoit variant issues exactly one PUT, whose body nests the single
object id inside `preferences.idoit.object_ids`, performs no diffing — and,
contrary to the claim and to the module's own RETURN documentation, exits
with the initial result: `changed` is always `false` and the message empty,
because `result` is never updated after the PUT. -/
theorem C2_idoit_single_put_changed_false (p : IdoitParams) :
    run_module_idoit p =
      (.ok ⟨false, none, 0, ""⟩,
       [.putTicket p.ticket_id (change_idoit_object_payload p.object_id)]) ∧
    ((run_module_idoit p).2.filter ApiCall.isWrite).length = 1 :=
  ⟨rfl, rfl⟩

/-- C4: `has_changes` returns true exactly when some key of the desired
dict has a non-null value that differs from the current dict's value at that
key; null-valued desired keys are ignored. -/
theorem C4_has_changes_iff (current desired : List (String × Option String)) :
    has_changes current desired = true ↔
      ∃ kv ∈ desired, kv.2 ≠ none ∧ dictGet current kv.1 ≠ kv.2 := by
  unfold has_changes
  rw [List.any_eq_true]
  constructor
  · rintro ⟨kv, hmem, hkv⟩
    cases h : kv.2 with
    | none => rw [h] at hkv; simp at hkv
    | some v =>
        rw [h] at hkv
        have hne : dictGet current kv.1 ≠ some v := by
          simpa [bne_iff_ne] using hkv
        exact ⟨kv, hmem, by simp [h], by rw [h]; exact hne⟩
  · rintro ⟨kv, hmem, hne, hdiff⟩
    refine ⟨kv, hmem, ?_⟩
    cases h : kv.2 with
    | none => exact absurd h hne
    | some v =>
        rw [h] at hdiff
        simp only [h]
        simpa [bne_iff_ne] using hdiff

/-- C6: `make_request` classifies a status ≥ 400 as a fatal error carrying
the remote message and the status code; a status < 400 with a body that is
not valid JSON as a fatal malformed-response error; otherwise it returns the
parsed body with the status — and in every case it performs exactly one
transport round trip (no retry). -/
theorem C6_make_request_classification (resp : HttpResp) :
    (400 ≤ resp.status →
      make_request resp =
        (.failJson ("API request failed: " ++ resp.msg) (some resp.status), 1)) ∧
    (resp.status < 400 → resp.body = none →
      make_request resp = (.failJson "Failed to parse JSON response" none, 1)) ∧
    (∀ v, resp.status < 400 → resp.body = some v →
      make_request resp = (.ok v resp.status, 1)) ∧
    (make_request resp).2 = 1 := by
  refine ⟨?_, ?_, ?_, ?_⟩
  · intro h
    unfold make_request
    rw [if_pos h]
  · intro h hb
    unfold make_request
    rw [if_neg (Nat.not_le.mpr h), hb]
  · intro v h hb
    unfold make_request
    rw [if_neg (Nat.not_le.mpr h), hb]
  · unfold make_request
    by_cases h : 400 ≤ resp.status
    · rw [if_pos h]
    · rw [if_neg h]
      cases hb : resp.body <;> rfl

/-- Witness for C6 at concrete responses: a 404, a 200 with an unparseable
body, and a 200 with a parsed body. -/
theorem C6_witness :
    make_request ⟨404, "Not Found", none⟩ =
      (.failJson ("API request failed: " ++ "Not Found") (some 404), 1) ∧
    make_request ⟨200, "OK", none⟩ = (.failJson "Failed to parse JSON response" none, 1) ∧
    make_request ⟨200, "OK", some (.str "x")⟩ = (.ok (.str "x") 200, 1) :=
  ⟨(C6_make_request_classification ⟨404, "Not Found", none⟩).1 (by decide),
   (C6_make_request_classification ⟨200, "OK", none⟩).2.1 (by decide) rfl,
   (C6_make_request_classification ⟨200, "OK", some (.str "x")⟩).2.2.1 (.str "x")
     (by decide) rfl⟩

/-- C8: every lookup-by-id resolver (owner name, customer email, group name,
state name, priority name) returns `none` — not an error — when no entry of
its collection carries the ticket's foreign key. -/
theorem C8_lookup_by_id_absent (t : TicketRec) (users : List User)
    (groups ticket_states priorities : List NamedRec)
    (h1 : ∀ u ∈ users, (some u.id : Option Nat) ≠ t.owner_id)
    (h2 : ∀ u ∈ users, (some u.id : Option Nat) ≠ t.customer_id)
    (h3 : ∀ g ∈ groups, (some g.id : Option Nat) ≠ t.group_id)
    (h4 : ∀ s ∈ ticket_states, (some s.id : Option Nat) ≠ t.state_id)
    (h5 : ∀ q ∈ priorities, (some q.id : Option Nat) ≠ t.priority_id) :
    get_owner_name t users = none ∧ get_customer_email t users = none ∧
    get_group_name t groups = none ∧ get_ticket_state_name t ticket_states = none ∧
    get_priority_name t priorities = none := by
  refine ⟨?_, ?_, ?_, ?_, ?_⟩
  · unfold get_owner_name
    rw [List.find?_eq_none.mpr (fun u hu => by simp only [beq_iff_eq]; exact h1 u hu)]
    rfl
  · unfold get_customer_email
    rw [List.find?_eq_none.mpr (fun u hu => by simp only [beq_iff_eq]; exact h2 u hu)]
    rfl
  · unfold get_group_name
    rw [List.find?_eq_none.mpr (fun g hg => by simp only [beq_iff_eq]; exact h3 g hg)]
    rfl
  · unfold get_ticket_state_name
    rw [List.find?_eq_none.mpr (fun s hs => by simp only [beq_iff_eq]; exact h4 s hs)]
    rfl
  · unfold get_priority_name
    rw [List.find?_eq_none.mpr (fun q hq => by simp only [beq_iff_eq]; exact h5 q hq)]
    rfl

/-- Witness for C8: a ticket whose foreign keys (all 9) match no entry of the
non-empty collections. -/
theorem C8_witness :
    get_owner_name ⟨"T", some 9, some 9, some 9, some 9, some 9⟩
        [⟨1, "John", "Doe", "j@x"⟩] = none ∧
    get_customer_email ⟨"T", some 9, some 9, some 9, some 9, some 9⟩
        [⟨1, "John", "Doe", "j@x"⟩] = none ∧
    get_group_name ⟨"T", some 9, some 9, some 9, some 9, some 9⟩ [⟨1, "Support"⟩] = none ∧
    get_ticket_state_name ⟨"T", some 9, some 9, some 9, some 9, some 9⟩
        [⟨1, "open"⟩] = none ∧
    get_priority_name ⟨"T", some 9, some 9, some 9, some 9, some 9⟩ [⟨1, "high"⟩] = none :=
  C8_lookup_by_id_absent ⟨"T", some 9, some 9, some 9, some 9, some 9⟩
    [⟨1, "John", "Doe", "j@x"⟩] [⟨1, "Support"⟩] [⟨1, "open"⟩] [⟨1, "high"⟩]
    (by decide) (by decide) (by decide) (by decide) (by decide)

/-- C10: resolving a non-null owner name that contains no whitespace raises
`ValueError` (it never returns the absent value), and a name can resolve
without raising only if it contains a whitespace character. -/
theorem C10_single_token_owner (owners : List User) :
    (∀ name : String, name ≠ "" → (∀ c ∈ name.data, pyIsSpace c = false) →
      get_owner_id (some name) owners =
        .error "not enough values to unpack (expected 2, got 1)") ∧
    (∀ (name : String) (r : Option Nat), get_owner_id (some name) owners = .ok r →
      ∃ c ∈ name.data, pyIsSpace c = true) := by
  constructor
  · intro name hne hs
    simp only [get_owner_id]
    rw [splitMaxsplit1_single name hne hs]
  · intro name r hok
    by_cases hsp : ∃ c ∈ name.data, pyIsSpace c = true
    · exact hsp
    · exfalso
      push_neg at hsp
      have hs : ∀ c ∈ name.data, pyIsSpace c = false := fun c hc => by
        have := hsp c hc
        simpa using this
      by_cases hne : name = ""
      · subst hne
        have h0 : get_owner_id (some "") owners =
            .error "not enough values to unpack (expected 2, got 0)" := rfl
        rw [h0] at hok
        cases hok
      · have h1 : get_owner_id (some name) owners =
            .error "not enough values to unpack (expected 2, got 1)" := by
          simp only [get_owner_id]
          rw [splitMaxsplit1_single name hne hs]
        rw [h1] at hok
        cases hok

/-- Witness for C10: the single-token name "john" raises; the name
"John Doe" resolves (to the absent value over an empty collection) and
indeed contains a whitespace character. -/
theorem C10_witness :
    get_owner_id (some "john") [] =
      .error "not enough values to unpack (expected 2, got 1)" ∧
    ∃ c ∈ "John Doe".data, pyIsSpace c = true :=
  ⟨(C10_single_token_owner []).1 "john" (by decide) (by decide),
   (C10_single_token_owner []).2 "John Doe" none rfl⟩

/-- C1 (amended): when a required field for the selected operation is
missing, the invocation fails with a ValidationError before any
operation-specific request — but only after the four reference-data GETs
(users, groups, ticket states, priorities), which `run_module` issues
unconditionally before validating; so the call trace is exactly those four
fetches, with zero writes. -/
theorem C1_validation_after_refdata (p : Params) (env : Env)
    (hstate : p.state = "present" ∨ p.state = "absent")
    (hmiss : zammadAccessOk p = false ∨
      (natTruthy p.ticket_id = false ∧
        ((p.state = "present" ∧
           (["customer", "title", "group", "subject", "body", "ticket_state",
             "priority"].all (paramTruthy p)) = false) ∨
         p.state = "absent"))) :
    ∃ m, run_module p env = (.error (.validation m), refDataCalls) := by
  rcases hstate with hpres | habs
  · by_cases htid : natTruthy p.ticket_id = true
    · have hz : zammadAccessOk p = false := by
        rcases hmiss with h | ⟨h, -⟩
        · exact h
        · rw [htid] at h; cases h
      refine ⟨"Missing required zammad_access parameters: zammad_url, api_user, and/or api_secret.", ?_⟩
      unfold run_module
      rw [if_pos ⟨hpres, htid⟩]
      unfold validate_params
      rw [if_pos hz]
    · have hnp : ¬ (p.state = "present" ∧ natTruthy p.ticket_id = true) := by
        rintro ⟨-, h⟩; exact htid h
      by_cases hz : zammadAccessOk p = false
      · refine ⟨"Missing required zammad_access parameters: zammad_url, api_user, and/or api_secret.", ?_⟩
        unfold run_module
        rw [if_neg hnp, if_pos hpres]
        unfold validate_params
        rw [if_pos hz]
      · have hall : (["customer", "title", "group", "subject", "body", "ticket_state",
            "priority"].all (paramTruthy p)) = false := by
          rcases hmiss with h | ⟨-, h | h⟩
          · exact absurd h hz
          · exact h.2
          · exact absurd (hpres ▸ h) (by decide)
        refine ⟨"Missing required paramters: " ++ String.intercalate ", "
          ["customer", "title", "group", "subject", "body", "ticket_state", "priority"], ?_⟩
        unfold run_module
        rw [if_neg hnp, if_pos hpres]
        unfold validate_params
        rw [if_neg hz, if_pos hall]
  · have hnpres : ¬ p.state = "present" := by rw [habs]; decide
    have hnp : ¬ (p.state = "present" ∧ natTruthy p.ticket_id = true) := by
      rintro ⟨h, -⟩; exact hnpres h
    by_cases hz : zammadAccessOk p = false
    · refine ⟨"Missing required zammad_access parameters: zammad_url, api_user, and/or api_secret.", ?_⟩
      unfold run_module
      rw [if_neg hnp, if_neg hnpres, if_pos habs]
      unfold validate_params
      rw [if_pos hz]
    · have htid : natTruthy p.ticket_id = false := by
        rcases hmiss with h | ⟨h, -⟩
        · exact absurd h hz
        · exact h
      have hall : (["ticket_id"].all (paramTruthy p)) = false := by
        simp [paramTruthy, htid]
      refine ⟨"Missing required paramters: " ++ String.intercalate ", " ["ticket_id"], ?_⟩
      unfold run_module
      rw [if_neg hnp, if_neg hnpres, if_pos habs]
      unfold validate_params
      rw [if_neg hz, if_pos hall]

/-- Counterexample to C1 as stated: a create invocation missing its required
`customer` does fail with a ValidationError, but only after issuing the four
reference-data GETs — four network calls, not zero. -/
theorem C1_counterexample :
    run_module pC1 envA =
      (.error (.validation
        "Missing required paramters: customer, title, group, subject, body, ticket_state, priority"),
       refDataCalls) ∧
    (run_module pC1 envA).2.length = 4 ∧
    (run_module pC1 envA).2.length ≠ 0 :=
  ⟨rfl, rfl, by decide⟩

/-- Witness for the amended C1 at the concrete missing-customer create
invocation. -/
theorem C1_witness :
    ∃ m, run_module pC1 envA = (.error (.validation m), refDataCalls) :=
  C1_validation_after_refdata pC1 envA (Or.inl rfl)
    (Or.inr ⟨rfl, Or.inl ⟨rfl, by decide⟩⟩)

/-- C3: an update invocation on which no non-null desired field differs from
the resolved remote state performs zero writes and exits with
`changed = false` and message "No changes required." — its whole call trace
is the four reference fetches plus the two reads of the ticket and its
articles.  `run_module` is a function of the desired state and the remote
environment, and this run leaves the environment unwritten, so a second
invocation with the same desired state against the unchanged remote ticket is
the same application of `run_module` and returns the same `changed = false`
with zero writes. -/
theorem C3_update_no_change (p : Params) (env : Env) (tid : Nat) (la : Article)
    (hstate : p.state = "present") (htid : p.ticket_id = some tid) (hnz : tid ≠ 0)
    (hz : zammadAccessOk p = true)
    (hlast : env.articles.getLast? = some la)
    (hnc : has_changes (currentTicketData env la) (desiredTicketData p) = false) :
    run_module p env =
      (.ok ⟨false, some tid, 0, "No changes required."⟩,
       refDataCalls ++ [.getTicket tid, .getArticles tid]) := by
  have htr : natTruthy p.ticket_id = true := by
    rw [htid]
    simp [natTruthy, hnz]
  have hval : validate_params p ["ticket_id"] = .ok () := by
    unfold validate_params
    rw [if_neg (by simp [hz]), if_neg]
    simp [paramTruthy, htr]
  unfold run_module
  rw [if_pos ⟨hstate, htr⟩, hval]
  simp only [htid, Option.getD_some]
  rw [hlast]
  simp only [hnc, Bool.false_eq_true, if_false]

/-- Witness for C3: the all-null desired state against `envA` changes
nothing. -/
theorem C3_witness :
    run_module pC3 envA =
      (.ok ⟨false, some 5, 0, "No changes required."⟩,
       refDataCalls ++ [.getTicket 5, .getArticles 5]) :=
  C3_update_no_change pC3 envA 5 ⟨"s", "b", false⟩ rfl rfl (by decide) rfl rfl rfl

/-- C5 (amended): the close branch compares the resolved current state name
against the caller-supplied `ticket_state` only.  When the caller supplies no
target, nothing is compared and nothing is written — `changed = false`
regardless of the current state; when the supplied target equals the current
state name, zero writes and `changed = false`; otherwise exactly one PUT with
body `{"state": "closed"}` is issued and `changed = true`. -/
theorem C5_close_behavior (p : Params) (env : Env) (tid : Nat)
    (hstate : p.state = "absent") (htid : p.ticket_id = some tid) (hnz : tid ≠ 0)
    (hz : zammadAccessOk p = true) :
    (p.ticket_state = none ∨
        p.ticket_state = get_ticket_state_name env.ticket env.ticket_states →
      run_module p env =
        (.ok ⟨false, some tid, 0, "Ticket is already closed."⟩,
         refDataCalls ++ [.getTicket tid])) ∧
    (∀ s, p.ticket_state = some s →
        get_ticket_state_name env.ticket env.ticket_states ≠ some s →
      run_module p env =
        (.ok ⟨true, some tid, env.closeStatus, "Ticket closed successfully."⟩,
         refDataCalls ++ [.getTicket tid, .putTicket tid close_ticket_payload])) := by
  have hne : p.state = "present" ∧ natTruthy p.ticket_id = true → False := by
    rintro ⟨h, -⟩
    rw [hstate] at h
    exact absurd h (by decide)
  have hne2 : ¬ p.state = "present" := by
    rw [hstate]; decide
  have htr : natTruthy p.ticket_id = true := by
    rw [htid]; simp [natTruthy, hnz]
  have hval : validate_params p ["ticket_id"] = .ok () := by
    unfold validate_params
    rw [if_neg (by simp [hz]), if_neg]
    simp [paramTruthy, htr]
  constructor
  · intro hcase
    unfold run_module
    rw [if_neg (fun h => hne h), if_neg hne2, if_pos hstate, hval]
    simp only [htid, Option.getD_some]
    have hhc : has_changes
        [("ticket_state", get_ticket_state_name env.ticket env.ticket_states)]
        [("ticket_state", p.ticket_state)] = false := by
      rcases hcase with h | h
      · simp [has_changes, h]
      · simp only [has_changes, h, dictGet, List.any_cons, List.any_nil]
        cases get_ticket_state_name env.ticket env.ticket_states <;> simp
    rw [hhc]
    simp
  · intro s hs hdiff
    unfold run_module
    rw [if_neg (fun h => hne h), if_neg hne2, if_pos hstate, hval]
    simp only [htid, Option.getD_some]
    have hhc : has_changes
        [("ticket_state", get_ticket_state_name env.ticket env.ticket_states)]
        [("ticket_state", p.ticket_state)] = true := by
      simp [has_changes, hs, dictGet, bne_iff_ne]
      intro h
      exact hdiff h
    rw [hhc]
    simp

/-- Counterexample to C5 as stated: closing with no caller-supplied target,
while the remote ticket's state resolves to "open", issues zero writes and
returns `changed = false` — the claimed default desired state "closed" is
never used. -/
theorem C5_counterexample :
    run_module pC5 envA =
      (.ok ⟨false, some 5, 0, "Ticket is already closed."⟩,
       refDataCalls ++ [.getTicket 5]) ∧
    get_ticket_state_name envA.ticket envA.ticket_states = some "open" ∧
    pC5.ticket_state = none ∧
    ((run_module pC5 envA).2.filter ApiCall.isWrite).length = 0 :=
  ⟨rfl, rfl, rfl, rfl⟩

/-- Witness for the amended C5: no-target close against an "open" ticket
writes nothing; a close with target "closed" against the same ticket issues
the single closing PUT. -/
theorem C5_witness :
    run_module pC5 envA =
      (.ok ⟨false, some 5, 0, "Ticket is already closed."⟩,
       refDataCalls ++ [.getTicket 5]) ∧
    run_module pC5w envA =
      (.ok ⟨true, some 5, 200, "Ticket closed successfully."⟩,
       refDataCalls ++ [.getTicket 5, .putTicket 5 close_ticket_payload]) :=
  ⟨(C5_close_behavior pC5 envA 5 rfl rfl (by decide) rfl).1 (Or.inl rfl),
   (C5_close_behavior pC5w envA 5 rfl rfl (by decide) rfl).2 "closed" rfl (by decide)⟩

/-- C7 (amended): resolving an owner id to its composed display name and the
name back to an id returns the original id, provided the first and last name
are non-empty and whitespace-free (the claim's "exactly one internal
whitespace boundary") and — as the duplicate-name counterexample forces —
no other collection entry carries the same first and last name. -/
theorem C7_owner_roundtrip (owners : List User) (t : TicketRec) (u : User)
    (hoid : t.owner_id = some u.id) (hmem : u ∈ owners)
    (hidu : ∀ v ∈ owners, v.id = u.id → v = u)
    (hnameu : ∀ v ∈ owners, v.firstname = u.firstname → v.lastname = u.lastname → v = u)
    (hfn : u.firstname ≠ "") (hln : u.lastname ≠ "")
    (hfs : ∀ c ∈ u.firstname.data, pyIsSpace c = false)
    (hls : ∀ c ∈ u.lastname.data, pyIsSpace c = false) :
    get_owner_name t owners = some (u.firstname ++ " " ++ u.lastname) ∧
    get_owner_id (get_owner_name t owners) owners = .ok (some u.id) := by
  have h1 : get_owner_name t owners = some (u.firstname ++ " " ++ u.lastname) := by
    unfold get_owner_name
    rw [hoid, find?_by_id owners u hmem hidu]
    rfl
  refine ⟨h1, ?_⟩
  rw [h1]
  simp only [get_owner_id]
  rw [splitMaxsplit1_compose u.firstname u.lastname hfn hln hfs hls]
  show Except.ok ((owners.find?
      (fun o => o.firstname == u.firstname && o.lastname == u.lastname)).map
        (fun o => o.id)) = Except.ok (some u.id)
  rw [find?_by_name owners u hmem hnameu]
  rfl

/-- Counterexample to C7 as stated: two distinct users share the composed
name "John Doe" (which has exactly one internal whitespace boundary);
resolving owner id 2 to its name and back yields 1, not 2. -/
theorem C7_counterexample :
    tDup.owner_id = some 2 ∧
    get_owner_name tDup dupOwners = some "John Doe" ∧
    get_owner_id (get_owner_name tDup dupOwners) dupOwners = .ok (some 1) ∧
    (1 : Nat) ≠ 2 :=
  ⟨rfl, rfl, rfl, by decide⟩

/-- Witness for the amended C7 on a one-entry collection. -/
theorem C7_witness :
    get_owner_name ⟨"T", some 1, none, none, none, none⟩ [⟨1, "John", "Doe", "j@x"⟩] =
      some ("John" ++ " " ++ "Doe") ∧
    get_owner_id (get_owner_name ⟨"T", some 1, none, none, none, none⟩
        [⟨1, "John", "Doe", "j@x"⟩]) [⟨1, "John", "Doe", "j@x"⟩] = .ok (some 1) :=
  C7_owner_roundtrip [⟨1, "John", "Doe", "j@x"⟩] ⟨"T", some 1, none, none, none, none⟩
    ⟨1, "John", "Doe", "j@x"⟩ rfl (by decide) (by decide) (by decide) (by decide)
    (by decide) (by decide) (by decide)

/-- C9 (amended): a create invocation with every required field present
issues exactly one POST and returns `changed = true` with the identifier and
status taken from the create response — provided the optional owner name,
when supplied, resolves without raising (it splits into two
whitespace-separated parts), which the single-token counterexample forces. -/
theorem C9_create_all_required (p : Params) (env : Env) (oid : Option Nat)
    (hstate : p.state = "present") (htid : natTruthy p.ticket_id = false)
    (hz : zammadAccessOk p = true)
    (hcust : strTruthy p.customer = true) (htitle : strTruthy p.title = true)
    (hgroup : strTruthy p.group = true) (hsubj : strTruthy p.subject = true)
    (hbody : strTruthy p.body = true) (hts : strTruthy p.ticket_state = true)
    (hprio : strTruthy p.priority = true)
    (howner : get_owner_id p.owner env.users = .ok oid) :
    run_module p env =
      (.ok ⟨true, env.createRespId, env.createStatus, "Ticket created successfully."⟩,
       refDataCalls ++ [.postTicket (create_ticket_payload oid p.customer p.title p.group
         p.subject p.body p.internal p.ticket_state p.priority)]) := by
  have hval : validate_params p
      ["customer", "title", "group", "subject", "body", "ticket_state", "priority"] =
        .ok () := by
    unfold validate_params
    rw [if_neg (by simp [hz]), if_neg]
    simp [paramTruthy, hcust, htitle, hgroup, hsubj, hbody, hts, hprio]
  unfold run_module
  rw [if_neg (by rintro ⟨-, h⟩; rw [htid] at h; cases h), if_pos hstate, hval, howner]

/-- Counterexample to C9 as stated: a create invocation with every required
field present but a single-token owner name fails with `ValueError` before
the POST — zero writes instead of the claimed one POST. -/
theorem C9_counterexample :
    run_module pC9 envA =
      (.error (.valueError "not enough values to unpack (expected 2, got 1)"),
       refDataCalls) ∧
    strTruthy pC9.customer = true ∧ strTruthy pC9.title = true ∧
    strTruthy pC9.group = true ∧ strTruthy pC9.subject = true ∧
    strTruthy pC9.body = true ∧ strTruthy pC9.ticket_state = true ∧
    strTruthy pC9.priority = true ∧
    ((run_module pC9 envA).2.filter ApiCall.isWrite).length = 0 :=
  ⟨rfl, rfl, rfl, rfl, rfl, rfl, rfl, rfl, rfl⟩

/-- Witness for the amended C9: the same invocation with the resolvable
owner "John Doe" issues its single POST and reports the created id 77. -/
theorem C9_witness :
    run_module pC9w envA =
      (.ok ⟨true, some 77, 201, "Ticket created successfully."⟩,
       refDataCalls ++ [.postTicket (create_ticket_payload (some 1)
         (some "c@example.com") (some "T") (some "Support") (some "s") (some "b")
         false (some "open") (some "high"))]) :=
  C9_create_all_required pC9w envA (some 1) rfl rfl rfl rfl rfl rfl rfl rfl rfl rfl rfl

end Zammad





